import Mathlib

/-!
# Verification of the lidi receiver pipeline (shallow embedding)

This file embeds the parts of the lidi data-diode codebase needed to settle
the claims about:

* the dispatch / session demultiplexer (`src/up/deserialize.rs`, `main_loop`),
* the receiver configuration adjustment (`src/bin/diode-receive.rs`,
  `Config::adjust`), together with the protocol parameterization functions it
  calls (these live outside the provided sources and are modelled from the
  spec),
* the UDP send stage (`src/send/udp_send.rs`, `new` / `main_loop`) and the
  socket-buffer tuning fragment shared with the receive path
  (`src/bin/diode-receive.rs`).

Rust `BTreeMap`s are modelled as association lists with unique-key
operations, crossbeam channels as explicit snapshots (queued messages plus a
connected flag), and the stage loops as recursive functions over a finite
trace of externally-determined events (parse results, receive results, I/O
outcomes); an exhausted trace means "the loop is still running".
-/

namespace Deserialize

/-- `diode::Message`: one multiplexed client-stream event.
Payload bytes (`Vec<u8>`) are modelled as `List Nat`. -/
inductive Message where
  | start : Message
  | data (bytes : List Nat) : Message
  | padding (bytes : List Nat) : Message
  | abort : Message
  | end_ : Message
  deriving DecidableEq

/-- `diode::ClientId` is a 64-bit identifier; no arithmetic is ever performed
on it, so it is modelled as `Nat`. -/
abbrev ClientId := Nat

/-- `diode::ClientMessage { client_id, payload }`. -/
structure ClientMessage where
  client_id : ClientId
  payload : Message
  deriving DecidableEq

/-- Snapshot of a crossbeam unbounded channel (`Sender<diode::Message>` side):
`cid` is the identity of the channel (each `unbounded()` call yields a fresh
one), `pending` the messages queued and not yet consumed by the forwarding
worker, `connected` whether the receiving worker still holds the `Receiver`
(when it has exited, `send` fails). -/
structure Chan where
  cid : Nat
  pending : List Message
  connected : Bool
  deriving DecidableEq

/-- Association-list model of `BTreeMap<ClientId, Sender<Message>>`:
the operations below keep keys unique, matching `BTreeMap` semantics. -/
abbrev ChanMap := List (ClientId × Chan)

/-- `BTreeMap::get`. -/
def mapGet (m : ChanMap) (k : ClientId) : Option Chan :=
  (m.find? (fun p => p.1 == k)).map Prod.snd

/-- `BTreeMap::remove` (drops the entry for `k`; keys are unique). -/
def mapRemove (m : ChanMap) (k : ClientId) : ChanMap :=
  m.filter (fun p => ¬ p.1 = k)

/-- `BTreeMap::insert` (replaces any existing entry for `k`). -/
def mapInsert (m : ChanMap) (k : ClientId) (v : Chan) : ChanMap :=
  (k, v) :: mapRemove m k

/-- `BTreeSet::insert` on the failed-transfers set. -/
def setInsert (s : List ClientId) (k : ClientId) : List ClientId :=
  if s.contains k then s else k :: s

/-- The dispatcher's mutable state in `main_loop`: the three tables plus a
counter supplying fresh channel identities for `unbounded()` calls. -/
structure DispatchState where
  active_transfers : ChanMap
  ended_transfers : ChanMap
  failed_transfers : List ClientId
  fresh : Nat
  deriving DecidableEq

/-- Observable side effects of one loop iteration: `spawned` records
`thread::spawn(tcp_serve::new ...)` calls as `(client_id, channel id)` pairs,
`sent` records payloads successfully enqueued, as `(channel id, payload)`. -/
structure Effects where
  spawned : List (ClientId × Nat)
  sent : List (Nat × Message)
  deriving DecidableEq

def noEffects : Effects := ⟨[], []⟩

/-- Outcome of one iteration of the dispatch loop body: either the loop
continues with an updated state (every `continue` and normal fall-through in
the source), or the iteration panicked (a failed `.unwrap()`). -/
inductive StepResult where
  | next (st : DispatchState) (eff : Effects)
  | panicked
  deriving DecidableEq

/-- `let will_end = matches!(message.payload, Message::Abort | Message::End)`
(line 77 of the source). -/
def willEnd : Message → Bool
  | .abort => true
  | .end_ => true
  | _ => false

/-- One iteration of `main_loop` in `src/up/deserialize.rs` (lines 71-124),
after a `ClientMessage` has been successfully deserialized.  Mirrors the
source: the failed-set check comes first; `Padding` runs
`ended_transfers.retain(|_, q| q.is_empty())`; `Start` allocates a fresh
channel, inserts it (replacing any existing entry) and spawns a worker; other
payloads are sent on the active channel obtained by `.get(..).unwrap()`, a
send failure moves the id to the failed set, and `will_end` moves the channel
from the active to the ended table. -/
def dispatchStep (st : DispatchState) (m : ClientMessage) : StepResult :=
  if st.failed_transfers.contains m.client_id then
    .next st noEffects
  else
    match m.payload with
    | .padding _ =>
        .next { st with
                ended_transfers :=
                  st.ended_transfers.filter (fun p => p.2.pending.isEmpty) }
              noEffects
    | .start =>
        let c : Chan := { cid := st.fresh, pending := [], connected := true }
        .next { st with
                active_transfers := mapInsert st.active_transfers m.client_id c,
                fresh := st.fresh + 1 }
              { spawned := [(m.client_id, c.cid)], sent := [] }
    | payload =>
        match mapGet st.active_transfers m.client_id with
        | none => .panicked
        | some c =>
          if c.connected then
            let c' : Chan := { c with pending := c.pending ++ [payload] }
            if willEnd payload then
              .next { st with
                      active_transfers := mapRemove st.active_transfers m.client_id,
                      ended_transfers := mapInsert st.ended_transfers m.client_id c' }
                    { spawned := [], sent := [(c.cid, payload)] }
            else
              .next { st with
                      active_transfers := mapInsert st.active_transfers m.client_id c' }
                    { spawned := [], sent := [(c.cid, payload)] }
          else
            .next { st with
                    active_transfers := mapRemove st.active_transfers m.client_id,
                    failed_transfers := setInsert st.failed_transfers m.client_id }
                  noEffects

/-- A deserialization failure from `bincode::deserialize_from`. -/
structure DeserError where
  msg : String
  deriving DecidableEq

/-- Result of running the dispatch loop over a finite trace of parse results:
`err` is the `Err(Error::Deserialization(..))` return, `panicked` an escaped
`.unwrap()` panic, `running` means the trace is exhausted and the loop would
keep going with the given state. -/
inductive LoopResult where
  | err (e : DeserError)
  | panicked
  | running (st : DispatchState)
  deriving DecidableEq

/-- The dispatch `main_loop`, driven by the sequence of results that
`bincode::deserialize_from` produces on the reconstructed byte stream.  The
`?` on line 69 of the source returns the first deserialization error. -/
def main_loop_from (st : DispatchState) :
    List (Except DeserError ClientMessage) → LoopResult
  | [] => .running st
  | .error e :: _ => .err e
  | .ok m :: rest =>
      match dispatchStep st m with
      | .panicked => .panicked
      | .next st' _ => main_loop_from st' rest

/-- Initial state of `main_loop`: all three tables empty. -/
def initState : DispatchState := ⟨[], [], [], 0⟩

def main_loop (tr : List (Except DeserError ClientMessage)) : LoopResult :=
  main_loop_from initState tr

/-- `Error::Deserialization` as displayed by `impl fmt::Display for Error`. -/
def deserErrorMsg (e : DeserError) : String :=
  "deserialization error: " ++ e.msg

/-- `deserialize::new`: runs `main_loop` and logs its error, if any, exactly
once (`error!("deserialize loop error: {e}")`); returns the logged line. -/
def new (tr : List (Except DeserError ClientMessage)) : Option String :=
  match main_loop tr with
  | .err e => some ("deserialize loop error: " ++ deserErrorMsg e)
  | _ => none

end Deserialize

namespace Protocol

/-- Modelled from the spec: the `protocol` module (Object Transmission
Information) is not among the provided sources; only its callers are.  Per
§3/§4.1 the OTI is "derived deterministically from `mtu` and
`encoding_block_size`" and carries the symbol size and block length. -/
structure ObjectTransmissionInformation where
  symbol_size : Nat
  transfer_length : Nat
  deriving DecidableEq

/-- Modelled from the spec: fixed envelope overhead subtracted from the MTU
("`packet_size` ... derived from mtu minus fixed overhead", §4.1); the exact
constant is irrelevant to the claims, which depend only on `packet_size`. -/
def packet_overhead : Nat := 4

/-- Modelled from the spec: `protocol::object_transmission_information`,
a pure function of `(mtu, encoding_block_size)` (§4.1). -/
def object_transmission_information (mtu : Nat) (encoding_block_size : Nat) :
    ObjectTransmissionInformation :=
  { symbol_size := mtu - packet_overhead, transfer_length := encoding_block_size }

/-- Modelled from the spec: `protocol::packet_size`, the FEC payload bytes
per symbol (§4.1). -/
def packet_size (oti : ObjectTransmissionInformation) : Nat :=
  oti.symbol_size

/-- Modelled from the spec: `protocol::nb_encoding_packets`, the number of
source symbols per block; per §4.1 the adjustment step "rounds
`encoding_block_size` ... up to exact multiples of `packet_size`", so the
count is the ceiling of `encoding_block_size / packet_size`. -/
def nb_encoding_packets (oti : ObjectTransmissionInformation) : Nat :=
  (oti.transfer_length + packet_size oti - 1) / packet_size oti

/-- Modelled from the spec: `protocol::nb_repair_packets`; per §4.1 the
adjustment rounds `repair_block_size` up to an exact multiple of
`packet_size`, so the count is the ceiling of
`repair_block_size / packet_size`. -/
def nb_repair_packets (oti : ObjectTransmissionInformation)
    (repair_block_size : Nat) : Nat :=
  (repair_block_size + packet_size oti - 1) / packet_size oti

end Protocol

namespace DiodeReceive

open Protocol

/-- The fields of `diode-receive`'s `Config` that `Config::adjust` reads and
writes (`from_udp_mtu : u16`, `encoding_block_size : u64`,
`repair_block_size : u32`). -/
structure Config where
  from_udp_mtu : Nat
  encoding_block_size : Nat
  repair_block_size : Nat
  deriving DecidableEq

/-- `Config::adjust` (`src/bin/diode-receive.rs` lines 34-44): derive the OTI
from the current configuration, then overwrite both block sizes with
`nb_encoding_packets * packet_size` (in `u64`) and
`nb_repair_packets * packet_size` (in `u32`); the `% 2^64` / `% 2^32` mirror
the machine-width multiplications. -/
def Config.adjust (c : Config) : Config :=
  let oti := object_transmission_information c.from_udp_mtu c.encoding_block_size
  let ps := packet_size oti
  let nbe := nb_encoding_packets oti
  let nbr := nb_repair_packets oti c.repair_block_size
  { c with
    encoding_block_size := nbe * ps % 2 ^ 64,
    repair_block_size := nbr * ps % 2 ^ 32 }

end DiodeReceive

namespace SockUtils

/-- An `std::io::Error` (opaque: only its display text matters here). -/
structure IOErr where
  msg : String
  deriving DecidableEq

deriving instance DecidableEq for Except

/-- The externally-determined outcomes of the two `sock_utils` calls made by
a stage: the result of `set_socket_{send,recv}_buffer_size(&socket, i32::MAX)`
and of `get_socket_{send,recv}_buffer_size(&socket)` (the effective size the
kernel reports). -/
structure SockopsEnv where
  set_buffer : Except IOErr Unit
  get_buffer : Except IOErr Nat
  deriving DecidableEq

/-- The socket-buffer tuning fragment, identical on the UDP receive path
(`src/bin/diode-receive.rs` lines 237-245) and the UDP send path
(`src/send/udp_send.rs` lines 57-65): request a maximal buffer with `?`, read
the effective size with `?`, then warn exactly when the effective size is
below `2 * (encoding_block_size + repair_block_size)`.  Returns the effective
size and whether the warning was logged, or the propagated error. -/
def tune_socket_buffer (env : SockopsEnv) (encoding_block_size : Nat)
    (repair_block_size : Nat) : Except IOErr (Nat × Bool) :=
  match env.set_buffer with
  | .error e => .error e
  | .ok _ =>
    match env.get_buffer with
    | .error e => .error e
    | .ok s =>
        .ok (s, decide (s < 2 * (encoding_block_size + repair_block_size)))

end SockUtils

namespace UdpSend

open SockUtils

/-- A packet batch pulled from the crossbeam channel (`Vec<EncodingPacket>`,
each packet its serialized bytes). -/
abbrev Batch := List (List Nat)

/-- `udp_send::Error` (`Io` wraps an I/O error, `Crossbeam` a `RecvError`
from a disconnected channel). -/
inductive Error where
  | io_ (e : IOErr)
  | crossbeam
  deriving DecidableEq

/-- Externally-determined outcome of one iteration of the send loop:
`recvq.recv()` fails, or it yields a batch and `send_mmsg` fails, or both
succeed. -/
inductive Iteration where
  | recvFail
  | sendFail (pkts : Batch) (e : IOErr)
  | okIter (pkts : Batch)
  deriving DecidableEq

/-- Result of running the send stage over a finite trace: `failed e` is the
`Err(e)` return of `main_loop`; `running sent` means the trace is exhausted
and the loop keeps going, having sent the recorded batches. -/
inductive SendResult where
  | failed (e : Error)
  | running (sent : List Batch)
  deriving DecidableEq

/-- The `loop` of `udp_send::main_loop` (lines 70-73): each iteration does
`recvq.recv()?` then `send_mmsg(..)?`; the first failure returns the
corresponding error. -/
def send_loop (sent : List Batch) : List Iteration → SendResult
  | [] => .running sent
  | .recvFail :: _ => .failed .crossbeam
  | .sendFail _ e :: _ => .failed (.io_ e)
  | .okIter pkts :: rest => send_loop (sent ++ [pkts]) rest

/-- Externally-determined outcomes of the setup calls in
`udp_send::main_loop` (lines 56-68): `UdpSocket::bind` and the two
`sock_utils` calls. -/
structure Env where
  bind : Except IOErr Unit
  sockops : SockopsEnv
  deriving DecidableEq

/-- `udp_send::main_loop` (lines 51-74): bind with `?`, tune the send buffer
(each failure propagating with `?`), then run the send loop. -/
def main_loop (env : Env) (encoding_block_size : Nat) (repair_block_size : Nat)
    (iters : List Iteration) : SendResult :=
  match env.bind with
  | .error e => .failed (.io_ e)
  | .ok _ =>
    match tune_socket_buffer env.sockops encoding_block_size repair_block_size with
    | .error e => .failed (.io_ e)
    | .ok _ => send_loop [] iters

/-- Display text of `udp_send::Error`. -/
def errorMsg : Error → String
  | .io_ e => "I/O error: " ++ e.msg
  | .crossbeam => "crossbeam error: receiving on an empty and disconnected channel"

/-- `udp_send::new` (lines 45-49): run `main_loop` and log its error, if any,
exactly once (`error!("UDP send loop error: {e}")`); returns the logged
line. -/
def new (env : Env) (encoding_block_size : Nat) (repair_block_size : Nat)
    (iters : List Iteration) : Option String :=
  match main_loop env encoding_block_size repair_block_size iters with
  | .failed e => some ("UDP send loop error: " ++ errorMsg e)
  | .running _ => none

end UdpSend

namespace Deserialize

lemma mapRemove_cons_self {p : ClientId × Chan} {k : ClientId} (h : p.1 = k)
    (rest : ChanMap) : mapRemove (p :: rest) k = mapRemove rest k := by
  simp [mapRemove, List.filter_cons, h]

lemma mapRemove_cons_ne {p : ClientId × Chan} {k : ClientId} (h : ¬ p.1 = k)
    (rest : ChanMap) : mapRemove (p :: rest) k = p :: mapRemove rest k := by
  simp [mapRemove, List.filter_cons, h]

lemma mapGet_cons_self {p : ClientId × Chan} {k : ClientId} (h : p.1 = k)
    (rest : ChanMap) : mapGet (p :: rest) k = some p.2 := by
  unfold mapGet
  rw [List.find?_cons_of_pos _ (by simp [h])]
  rfl

lemma mapGet_cons_ne {p : ClientId × Chan} {k : ClientId} (h : ¬ p.1 = k)
    (rest : ChanMap) : mapGet (p :: rest) k = mapGet rest k := by
  unfold mapGet
  rw [List.find?_cons_of_neg _ (by simp [h])]

lemma mapGet_mapInsert_self (m : ChanMap) (k : ClientId) (v : Chan) :
    mapGet (mapInsert m k v) k = some v := by
  unfold mapInsert
  rw [mapGet_cons_self rfl]

lemma mapGet_mapRemove_self (m : ChanMap) (k : ClientId) :
    mapGet (mapRemove m k) k = none := by
  induction m with
  | nil => rfl
  | cons p rest ih =>
    by_cases h : p.1 = k
    · rw [mapRemove_cons_self h]; exact ih
    · rw [mapRemove_cons_ne h, mapGet_cons_ne h]; exact ih

lemma mapGet_mapRemove_ne (m : ChanMap) (k k' : ClientId) (h : k' ≠ k) :
    mapGet (mapRemove m k) k' = mapGet m k' := by
  induction m with
  | nil => rfl
  | cons p rest ih =>
    by_cases h1 : p.1 = k
    · have h2 : ¬ p.1 = k' := by rw [h1]; exact fun hc => h hc.symm
      rw [mapRemove_cons_self h1, mapGet_cons_ne h2]; exact ih
    · by_cases h2 : p.1 = k'
      · rw [mapRemove_cons_ne h1, mapGet_cons_self h2, mapGet_cons_self h2]
      · rw [mapRemove_cons_ne h1, mapGet_cons_ne h2, mapGet_cons_ne h2]; exact ih

lemma mapGet_mapInsert_ne (m : ChanMap) (k k' : ClientId) (v : Chan)
    (h : k' ≠ k) :
    mapGet (mapInsert m k v) k' = mapGet m k' := by
  unfold mapInsert
  rw [mapGet_cons_ne (by exact fun hc => h hc.symm), mapGet_mapRemove_ne m k k' h]

lemma mem_mapRemove {m : ChanMap} {k : ClientId} {p : ClientId × Chan}
    (h : p ∈ mapRemove m k) : p ∈ m :=
  List.mem_of_mem_filter h

lemma mem_mapInsert {m : ChanMap} {k : ClientId} {v : Chan}
    {p : ClientId × Chan} (h : p ∈ mapInsert m k v) : p = (k, v) ∨ p ∈ m := by
  rcases List.mem_cons.mp h with h1 | h1
  · exact Or.inl h1
  · exact Or.inr (mem_mapRemove h1)

lemma mapGet_mem {m : ChanMap} {k : ClientId} {c : Chan}
    (h : mapGet m k = some c) : (k, c) ∈ m := by
  unfold mapGet at h
  cases hf : m.find? (fun p => p.1 == k) with
  | none => rw [hf] at h; cases h
  | some p =>
    rw [hf] at h
    have hm := List.mem_of_find?_eq_some hf
    have hp := List.find?_some hf
    have hk : p.1 = k := by simpa using hp
    have hc : p.2 = c := by simpa using h
    have : p = (k, c) := Prod.ext hk hc
    rwa [this] at hm

section StepEquations

variable (st : DispatchState) (id : ClientId)

lemma dispatchStep_failed (m : ClientMessage)
    (hf : st.failed_transfers.contains m.client_id = true) :
    dispatchStep st m = .next st noEffects := by
  have hf2 : m.client_id ∈ st.failed_transfers := by simpa using hf
  simp [dispatchStep, hf2]

lemma dispatchStep_padding (bs : List Nat)
    (hf : st.failed_transfers.contains id = false) :
    dispatchStep st ⟨id, .padding bs⟩ =
      .next { st with
              ended_transfers :=
                st.ended_transfers.filter (fun p => p.2.pending.isEmpty) }
            noEffects := by
  have hf2 : id ∉ st.failed_transfers := by simpa using hf
  simp [dispatchStep, hf2]

lemma dispatchStep_start (hf : st.failed_transfers.contains id = false) :
    dispatchStep st ⟨id, .start⟩ =
      .next { st with
              active_transfers := mapInsert st.active_transfers id
                ⟨st.fresh, [], true⟩,
              fresh := st.fresh + 1 }
            ⟨[(id, st.fresh)], []⟩ := by
  have hf2 : id ∉ st.failed_transfers := by simpa using hf
  simp [dispatchStep, hf2]

lemma dispatchStep_forward_miss (payload : Message)
    (hf : st.failed_transfers.contains id = false)
    (hnp : ∀ bs, payload ≠ .padding bs) (hns : payload ≠ .start)
    (hget : mapGet st.active_transfers id = none) :
    dispatchStep st ⟨id, payload⟩ = .panicked := by
  cases payload with
  | padding bs => exact absurd rfl (hnp bs)
  | start => exact absurd rfl hns
  | data bs =>
    have hf2 : id ∉ st.failed_transfers := by simpa using hf
    simp [dispatchStep, hf2, hget]
  | abort =>
    have hf2 : id ∉ st.failed_transfers := by simpa using hf
    simp [dispatchStep, hf2, hget]
  | end_ =>
    have hf2 : id ∉ st.failed_transfers := by simpa using hf
    simp [dispatchStep, hf2, hget]

lemma dispatchStep_forward_dead (payload : Message)
    (hf : st.failed_transfers.contains id = false)
    (hnp : ∀ bs, payload ≠ .padding bs) (hns : payload ≠ .start)
    {c : Chan} (hget : mapGet st.active_transfers id = some c)
    (hconn : c.connected = false) :
    dispatchStep st ⟨id, payload⟩ =
      .next { st with
              active_transfers := mapRemove st.active_transfers id,
              failed_transfers := setInsert st.failed_transfers id }
            noEffects := by
  cases payload with
  | padding bs => exact absurd rfl (hnp bs)
  | start => exact absurd rfl hns
  | data bs =>
    have hf2 : id ∉ st.failed_transfers := by simpa using hf
    simp [dispatchStep, hf2, hget, hconn]
  | abort =>
    have hf2 : id ∉ st.failed_transfers := by simpa using hf
    simp [dispatchStep, hf2, hget, hconn]
  | end_ =>
    have hf2 : id ∉ st.failed_transfers := by simpa using hf
    simp [dispatchStep, hf2, hget, hconn]

lemma dispatchStep_forward_live (payload : Message)
    (hf : st.failed_transfers.contains id = false)
    (hnp : ∀ bs, payload ≠ .padding bs) (hns : payload ≠ .start)
    {c : Chan} (hget : mapGet st.active_transfers id = some c)
    (hconn : c.connected = true) :
    dispatchStep st ⟨id, payload⟩ =
      (if willEnd payload then
        .next { st with
                active_transfers := mapRemove st.active_transfers id,
                ended_transfers := mapInsert st.ended_transfers id
                  { c with pending := c.pending ++ [payload] } }
              ⟨[], [(c.cid, payload)]⟩
      else
        .next { st with
                active_transfers := mapInsert st.active_transfers id
                  { c with pending := c.pending ++ [payload] } }
              ⟨[], [(c.cid, payload)]⟩) := by
  cases payload with
  | padding bs => exact absurd rfl (hnp bs)
  | start => exact absurd rfl hns
  | data bs =>
    have hf2 : id ∉ st.failed_transfers := by simpa using hf
    simp [dispatchStep, hf2, hget, hconn, willEnd]
  | abort =>
    have hf2 : id ∉ st.failed_transfers := by simpa using hf
    simp [dispatchStep, hf2, hget, hconn, willEnd]
  | end_ =>
    have hf2 : id ∉ st.failed_transfers := by simpa using hf
    simp [dispatchStep, hf2, hget, hconn, willEnd]

end StepEquations

/-- Invariant of the dispatcher state: every channel stored in the tables was
allocated from the freshness counter, so its identity is below `fresh`. -/
def cidBound (st : DispatchState) : Prop :=
  (∀ p ∈ st.active_transfers, p.2.cid < st.fresh) ∧
  (∀ p ∈ st.ended_transfers, p.2.cid < st.fresh)

instance (st : DispatchState) : Decidable (cidBound st) := by
  unfold cidBound; infer_instance

lemma cidBound_init : cidBound initState := by
  constructor <;> intro p hp <;> cases hp

lemma cidBound_step_forward {st st' : DispatchState} {id : ClientId}
    {payload : Message} {eff : Effects}
    (h : dispatchStep st ⟨id, payload⟩ = .next st' eff)
    (hf : st.failed_transfers.contains id = false)
    (hnp : ∀ bs, payload ≠ .padding bs) (hns : payload ≠ .start)
    (hba : ∀ p ∈ st.active_transfers, p.2.cid < st.fresh)
    (hbe : ∀ p ∈ st.ended_transfers, p.2.cid < st.fresh) : cidBound st' := by
  cases hget : mapGet st.active_transfers id with
  | none =>
    rw [dispatchStep_forward_miss st id payload hf hnp hns hget] at h
    cases h
  | some c =>
    have hc : c.cid < st.fresh := hba _ (mapGet_mem hget)
    cases hconn : c.connected with
    | false =>
      rw [dispatchStep_forward_dead st id payload hf hnp hns hget hconn] at h
      cases h
      exact ⟨fun p hp => hba p (mem_mapRemove hp), hbe⟩
    | true =>
      rw [dispatchStep_forward_live st id payload hf hnp hns hget hconn] at h
      by_cases hwe : willEnd payload = true
      · rw [if_pos hwe] at h
        cases h
        constructor
        · intro p hp
          exact hba p (mem_mapRemove hp)
        · intro p hp
          rcases mem_mapInsert hp with h1 | h1
          · rw [h1]; exact hc
          · exact hbe p h1
      · rw [if_neg hwe] at h
        cases h
        constructor
        · intro p hp
          rcases mem_mapInsert hp with h1 | h1
          · rw [h1]; exact hc
          · exact hba p h1
        · exact hbe

lemma cidBound_step {st st' : DispatchState} {m : ClientMessage} {eff : Effects}
    (h : dispatchStep st m = .next st' eff) (hb : cidBound st) : cidBound st' := by
  obtain ⟨hba, hbe⟩ := hb
  obtain ⟨id, payload⟩ := m
  by_cases hf : st.failed_transfers.contains id = true
  · rw [dispatchStep_failed st ⟨id, payload⟩ hf] at h
    cases h
    exact ⟨hba, hbe⟩
  · rw [Bool.not_eq_true] at hf
    cases payload with
    | padding bs =>
      rw [dispatchStep_padding st id bs hf] at h
      cases h
      exact ⟨hba, fun p hp => hbe p (List.mem_of_mem_filter hp)⟩
    | start =>
      rw [dispatchStep_start st id hf] at h
      cases h
      constructor
      · intro p hp
        rcases mem_mapInsert hp with h1 | h1
        · rw [h1]; exact Nat.lt_succ_self _
        · exact Nat.lt_succ_of_lt (hba p h1)
      · intro p hp
        exact Nat.lt_succ_of_lt (hbe p hp)
    | data bs =>
      exact cidBound_step_forward h hf (fun _ hc => by cases hc) (by intro hc; cases hc)
        hba hbe
    | abort =>
      exact cidBound_step_forward h hf (fun _ hc => by cases hc) (by intro hc; cases hc)
        hba hbe
    | end_ =>
      exact cidBound_step_forward h hf (fun _ hc => by cases hc) (by intro hc; cases hc)
        hba hbe

lemma main_loop_from_append (tr₁ : List (Except DeserError ClientMessage))
    {st st' : DispatchState} (tr₂ : List (Except DeserError ClientMessage))
    (h : main_loop_from st tr₁ = .running st') :
    main_loop_from st (tr₁ ++ tr₂) = main_loop_from st' tr₂ := by
  induction tr₁ generalizing st with
  | nil => cases h; rfl
  | cons a rest ih =>
    cases a with
    | error e => simp [main_loop_from] at h
    | ok m =>
      rw [List.cons_append]
      rw [show main_loop_from st (.ok m :: rest) =
            (match dispatchStep st m with
             | .panicked => .panicked
             | .next st₂ _ => main_loop_from st₂ rest) from rfl] at h
      rw [show main_loop_from st (.ok m :: (rest ++ tr₂)) =
            (match dispatchStep st m with
             | .panicked => .panicked
             | .next st₂ _ => main_loop_from st₂ (rest ++ tr₂)) from rfl]
      cases hs : dispatchStep st m with
      | panicked => rw [hs] at h; simp at h
      | next st₂ eff => rw [hs] at h; exact ih h

lemma cidBound_run {st st' : DispatchState}
    (tr : List (Except DeserError ClientMessage))
    (h : main_loop_from st tr = .running st') (hb : cidBound st) : cidBound st' := by
  induction tr generalizing st with
  | nil => cases h; exact hb
  | cons a rest ih =>
    cases a with
    | error e => simp [main_loop_from] at h
    | ok m =>
      rw [show main_loop_from st (.ok m :: rest) =
            (match dispatchStep st m with
             | .panicked => .panicked
             | .next st₂ _ => main_loop_from st₂ rest) from rfl] at h
      cases hs : dispatchStep st m with
      | panicked => rw [hs] at h; simp at h
      | next st₂ eff => rw [hs] at h; exact ih h (cidBound_step hs hb)

end Deserialize

namespace UdpSend

lemma send_loop_append_ok (pre : List Batch) (sent : List Batch)
    (tr : List Iteration) :
    send_loop sent (pre.map Iteration.okIter ++ tr) = send_loop (sent ++ pre) tr := by
  induction pre generalizing sent with
  | nil => simp
  | cons b rest ih =>
    rw [List.map_cons, List.cons_append]
    rw [show send_loop sent (.okIter b :: (rest.map Iteration.okIter ++ tr)) =
          send_loop (sent ++ [b]) (rest.map Iteration.okIter ++ tr) from rfl]
    rw [ih]
    simp

end UdpSend

namespace Protocol

lemma roundUp_ge (x p : Nat) (hp : 0 < p) : x ≤ (x + p - 1) / p * p := by
  by_contra hcon
  push_neg at hcon
  have h2 : ((x + p - 1) / p + 1) * p ≤ x + p - 1 := by
    rw [Nat.succ_mul]
    omega
  have h3 := (Nat.le_div_iff_mul_le hp).mpr h2
  omega

lemma roundUp_lt (x p : Nat) (hp : 0 < p) : (x + p - 1) / p * p < x + p := by
  have h1 := Nat.div_mul_le_self (x + p - 1) p
  omega

end Protocol

namespace Deserialize

lemma setInsert_contains_self (s : List ClientId) (k : ClientId) :
    (setInsert s k).contains k = true := by
  unfold setInsert
  split
  · assumption
  · simp

lemma setInsert_contains_mono (s : List ClientId) (k i : ClientId)
    (h : s.contains i = true) : (setInsert s k).contains i = true := by
  unfold setInsert
  split
  · exact h
  · simp at h ⊢
    exact Or.inr h

lemma dispatchStep_forward_failed_transfers {st st' : DispatchState}
    {id : ClientId} {payload : Message} {eff : Effects}
    (h : dispatchStep st ⟨id, payload⟩ = .next st' eff)
    (hf : st.failed_transfers.contains id = false)
    (hnp : ∀ bs, payload ≠ .padding bs) (hns : payload ≠ .start) :
    st'.failed_transfers = st.failed_transfers ∨
    st'.failed_transfers = setInsert st.failed_transfers id := by
  cases hget : mapGet st.active_transfers id with
  | none =>
    rw [dispatchStep_forward_miss st id payload hf hnp hns hget] at h
    cases h
  | some c =>
    cases hconn : c.connected with
    | false =>
      rw [dispatchStep_forward_dead st id payload hf hnp hns hget hconn] at h
      cases h
      exact Or.inr rfl
    | true =>
      rw [dispatchStep_forward_live st id payload hf hnp hns hget hconn] at h
      by_cases hwe : willEnd payload = true
      · rw [if_pos hwe] at h
        cases h
        exact Or.inl rfl
      · rw [if_neg hwe] at h
        cases h
        exact Or.inl rfl

lemma dispatchStep_failed_mono {st st' : DispatchState} {m : ClientMessage}
    {eff : Effects} (h : dispatchStep st m = .next st' eff) {i : ClientId}
    (hi : st.failed_transfers.contains i = true) :
    st'.failed_transfers.contains i = true := by
  obtain ⟨id, payload⟩ := m
  by_cases hf : st.failed_transfers.contains id = true
  · rw [dispatchStep_failed st ⟨id, payload⟩ hf] at h
    cases h
    exact hi
  · rw [Bool.not_eq_true] at hf
    cases payload with
    | padding bs =>
      rw [dispatchStep_padding st id bs hf] at h
      cases h
      exact hi
    | start =>
      rw [dispatchStep_start st id hf] at h
      cases h
      exact hi
    | data bs =>
      rcases dispatchStep_forward_failed_transfers h hf
          (fun _ hc => by cases hc) (by intro hc; cases hc) with h1 | h1
      · rw [h1]; exact hi
      · rw [h1]; exact setInsert_contains_mono _ _ _ hi
    | abort =>
      rcases dispatchStep_forward_failed_transfers h hf
          (fun _ hc => by cases hc) (by intro hc; cases hc) with h1 | h1
      · rw [h1]; exact hi
      · rw [h1]; exact setInsert_contains_mono _ _ _ hi
    | end_ =>
      rcases dispatchStep_forward_failed_transfers h hf
          (fun _ hc => by cases hc) (by intro hc; cases hc) with h1 | h1
      · rw [h1]; exact hi
      · rw [h1]; exact setInsert_contains_mono _ _ _ hi

lemma failed_mono_run {st st₂ : DispatchState}
    (tr : List (Except DeserError ClientMessage))
    (h : main_loop_from st tr = .running st₂) {i : ClientId}
    (hi : st.failed_transfers.contains i = true) :
    st₂.failed_transfers.contains i = true := by
  induction tr generalizing st with
  | nil => cases h; exact hi
  | cons a rest ih =>
    cases a with
    | error e => simp [main_loop_from] at h
    | ok m =>
      rw [show main_loop_from st (.ok m :: rest) =
            (match dispatchStep st m with
             | .panicked => .panicked
             | .next st₃ _ => main_loop_from st₃ rest) from rfl] at h
      cases hs : dispatchStep st m with
      | panicked => rw [hs] at h; simp at h
      | next st₃ eff =>
        rw [hs] at h
        exact ih h (dispatchStep_failed_mono hs hi)

end Deserialize

namespace Deserialize

/-- C1: the claim states that a `Padding` message removes every Ended session
whose queue is fully drained and retains every Ended session whose queue
still holds messages.  The code does the opposite (`retain = is_empty`
instead of `retain = !is_empty` in the `retain` closure): evaluating
`dispatchStep` on an ended table holding client 1 with a drained queue and
client 2 with a still-loaded queue, the drained session 1 is retained and
the loaded session 2 is removed before its queue has drained. -/
theorem C1_padding_gc_inverted :
    dispatchStep
        { active_transfers := [],
          ended_transfers :=
            [(1, ⟨10, [], true⟩), (2, ⟨11, [Message.data [7]], true⟩)],
          failed_transfers := [], fresh := 12 }
        ⟨0, Message.padding []⟩ =
      StepResult.next
        { active_transfers := [],
          ended_transfers := [(1, ⟨10, [], true⟩)],
          failed_transfers := [], fresh := 12 }
        noEffects := by
  rfl

/-- C2 (counterexample): the claim states that a `Start` for a failed
client_id allocates a fresh session and forwarding resumes.  In the code the
failed-set check precedes the `match`, so a `Start` carrying a failed id is
silently dropped: from a state whose failed set is `{5}`, `Start` for id 5
leaves the state unchanged and spawns nothing. -/
theorem C2_start_for_failed_id_dropped :
    dispatchStep ⟨[], [], [5], 0⟩ ⟨5, Message.start⟩ =
      StepResult.next ⟨[], [], [5], 0⟩ noEffects := by
  rfl

/-- C2 (amended): once a client_id is in the failed set, every subsequent
message for that id — `Start` included — is silently dropped with no state
change and no effects, and no dispatch step ever removes the id from the
failed set, so forwarding never resumes for it. -/
theorem C2_failed_id_dropped_forever (st : DispatchState) (m : ClientMessage)
    (hf : st.failed_transfers.contains m.client_id = true) :
    dispatchStep st m = .next st noEffects ∧
    ∀ (tr : List (Except DeserError ClientMessage)) (st₂ : DispatchState),
      main_loop_from st tr = .running st₂ →
      st₂.failed_transfers.contains m.client_id = true ∧
      ∀ m₂ : ClientMessage, m₂.client_id = m.client_id →
        dispatchStep st₂ m₂ = .next st₂ noEffects := by
  refine ⟨dispatchStep_failed st m hf, ?_⟩
  intro tr st₂ hrun
  have h₂ := failed_mono_run tr hrun hf
  refine ⟨h₂, ?_⟩
  intro m₂ hm₂
  apply dispatchStep_failed
  rw [hm₂]
  exact h₂

/-- Witness for C2 (amended) at a concrete input: failed set `{5}`, incoming
`Start` for id 5. -/
theorem C2_failed_id_dropped_forever_witness :
    dispatchStep ⟨[], [], [5], 0⟩ ⟨5, Message.start⟩ =
      .next ⟨[], [], [5], 0⟩ noEffects ∧
    ∀ (tr : List (Except DeserError ClientMessage)) (st₂ : DispatchState),
      main_loop_from ⟨[], [], [5], 0⟩ tr = .running st₂ →
      st₂.failed_transfers.contains 5 = true ∧
      ∀ m₂ : ClientMessage, m₂.client_id = 5 →
        dispatchStep st₂ m₂ = .next st₂ noEffects :=
  C2_failed_id_dropped_forever ⟨[], [], [5], 0⟩ ⟨5, Message.start⟩ (by decide)

/-- C3: for a `Data`, `Abort` or `End` message whose client_id is active and
not failed, if the enqueue fails (the worker has dropped its receiver), the
session is removed from the active table, the id joins the failed set, no
effect is produced, the loop continues, every other session's entry is
untouched, and any later message carrying that id is dropped with no further
state change. -/
theorem C3_enqueue_failure_blacklists (st : DispatchState) (id : ClientId)
    (payload : Message) (c : Chan)
    (hpay : (∃ bs, payload = .data bs) ∨ payload = .abort ∨ payload = .end_)
    (hf : st.failed_transfers.contains id = false)
    (hget : mapGet st.active_transfers id = some c)
    (hdead : c.connected = false) :
    dispatchStep st ⟨id, payload⟩ =
      .next { st with
              active_transfers := mapRemove st.active_transfers id,
              failed_transfers := setInsert st.failed_transfers id }
            noEffects ∧
    mapGet (mapRemove st.active_transfers id) id = none ∧
    (setInsert st.failed_transfers id).contains id = true ∧
    (∀ k, k ≠ id →
      mapGet (mapRemove st.active_transfers id) k = mapGet st.active_transfers k) ∧
    (∀ (tr : List (Except DeserError ClientMessage)) (st₂ : DispatchState),
      main_loop_from
          { st with
            active_transfers := mapRemove st.active_transfers id,
            failed_transfers := setInsert st.failed_transfers id } tr =
        .running st₂ →
      ∀ m₂ : ClientMessage, m₂.client_id = id →
        dispatchStep st₂ m₂ = .next st₂ noEffects) := by
  have hnp : ∀ bs, payload ≠ .padding bs := by
    rcases hpay with ⟨bs, h⟩ | h | h <;> (rw [h]; intro bs hc; cases hc)
  have hns : payload ≠ .start := by
    rcases hpay with ⟨bs, h⟩ | h | h <;> (rw [h]; intro hc; cases hc)
  refine ⟨dispatchStep_forward_dead st id payload hf hnp hns hget hdead,
    mapGet_mapRemove_self _ _, setInsert_contains_self _ _,
    fun k hk => mapGet_mapRemove_ne _ _ _ hk, ?_⟩
  intro tr st₂ hrun m₂ hm₂
  have h₂ := failed_mono_run tr hrun (setInsert_contains_self st.failed_transfers id)
  apply dispatchStep_failed
  rw [hm₂]
  exact h₂

/-- Witness for C3 at a concrete input: client 7's worker has exited
(`connected = false`); a `Data` message for 7 arrives. -/
theorem C3_enqueue_failure_blacklists_witness :
    dispatchStep ⟨[(7, ⟨0, [], false⟩)], [], [], 1⟩ ⟨7, Message.data [1]⟩ =
      .next { (⟨[(7, ⟨0, [], false⟩)], [], [], 1⟩ : DispatchState) with
              active_transfers := mapRemove [(7, ⟨0, [], false⟩)] 7,
              failed_transfers := setInsert [] 7 }
            noEffects ∧
    mapGet (mapRemove [(7, ⟨0, [], false⟩)] 7) 7 = none ∧
    (setInsert [] 7).contains 7 = true ∧
    (∀ k, k ≠ 7 →
      mapGet (mapRemove [(7, ⟨0, [], false⟩)] 7) k =
        mapGet [(7, ⟨0, [], false⟩)] k) ∧
    (∀ (tr : List (Except DeserError ClientMessage)) (st₂ : DispatchState),
      main_loop_from
          { (⟨[(7, ⟨0, [], false⟩)], [], [], 1⟩ : DispatchState) with
            active_transfers := mapRemove [(7, ⟨0, [], false⟩)] 7,
            failed_transfers := setInsert [] 7 } tr =
        .running st₂ →
      ∀ m₂ : ClientMessage, m₂.client_id = 7 →
        dispatchStep st₂ m₂ = .next st₂ noEffects) :=
  C3_enqueue_failure_blacklists ⟨[(7, ⟨0, [], false⟩)], [], [], 1⟩ 7
    (Message.data [1]) ⟨0, [], false⟩ (Or.inl ⟨[1], rfl⟩) (by decide) (by decide)
    (by decide)

end Deserialize

namespace Deserialize

/-- C4: a `Start` for a client_id that is already active (and not failed)
overwrites the session's entry with a brand-new empty queue (its identity
differs from the old channel's), spawns a new forwarding worker, enqueues
nothing to any channel (so the previous worker is never signalled), and
leaves the ended and failed tables untouched — the previous worker is
orphaned.  The `cidBound` hypothesis is the allocation invariant, which
holds in the initial state and is preserved by every step (`cidBound_init`,
`cidBound_step`, `cidBound_run`). -/
theorem C4_start_overwrites_active (st : DispatchState) (id : ClientId)
    (c : Chan) (hb : cidBound st)
    (hf : st.failed_transfers.contains id = false)
    (hget : mapGet st.active_transfers id = some c) :
    dispatchStep st ⟨id, .start⟩ =
      .next { st with
              active_transfers :=
                mapInsert st.active_transfers id ⟨st.fresh, [], true⟩,
              fresh := st.fresh + 1 }
            ⟨[(id, st.fresh)], []⟩ ∧
    mapGet (mapInsert st.active_transfers id ⟨st.fresh, [], true⟩) id =
      some ⟨st.fresh, [], true⟩ ∧
    (⟨st.fresh, [], true⟩ : Chan).cid ≠ c.cid := by
  refine ⟨dispatchStep_start st id hf, mapGet_mapInsert_self _ _ _, ?_⟩
  have hc : c.cid < st.fresh := hb.1 _ (mapGet_mem hget)
  exact fun hcon => absurd (hcon ▸ hc) (lt_irrefl _)

/-- Witness for C4 at a concrete input: client 3 is already active with
channel 0 (one queued payload), no failed ids. -/
theorem C4_start_overwrites_active_witness :
    dispatchStep ⟨[(3, ⟨0, [Message.data [1]], true⟩)], [], [], 1⟩
        ⟨3, Message.start⟩ =
      .next { (⟨[(3, ⟨0, [Message.data [1]], true⟩)], [], [], 1⟩ : DispatchState) with
              active_transfers :=
                mapInsert [(3, ⟨0, [Message.data [1]], true⟩)] 3 ⟨1, [], true⟩,
              fresh := 2 }
            ⟨[(3, 1)], []⟩ ∧
    mapGet (mapInsert [(3, ⟨0, [Message.data [1]], true⟩)] 3 ⟨1, [], true⟩) 3 =
      some ⟨1, [], true⟩ ∧
    (⟨1, [], true⟩ : Chan).cid ≠ (⟨0, [Message.data [1]], true⟩ : Chan).cid :=
  C4_start_overwrites_active ⟨[(3, ⟨0, [Message.data [1]], true⟩)], [], [], 1⟩ 3
    ⟨0, [Message.data [1]], true⟩ (by constructor <;> decide) (by decide) (by decide)

/-- C5: an `Abort` or `End` for an active, non-failed client_id whose enqueue
succeeds moves the very same channel (same identity, its queue extended by
the terminal payload, so all already-queued data is still there) from the
active table to the ended table. -/
theorem C5_terminal_moves_to_ended (st : DispatchState) (id : ClientId)
    (payload : Message) (c : Chan)
    (hpay : payload = .abort ∨ payload = .end_)
    (hf : st.failed_transfers.contains id = false)
    (hget : mapGet st.active_transfers id = some c)
    (hconn : c.connected = true) :
    dispatchStep st ⟨id, payload⟩ =
      .next { st with
              active_transfers := mapRemove st.active_transfers id,
              ended_transfers := mapInsert st.ended_transfers id
                { c with pending := c.pending ++ [payload] } }
            ⟨[], [(c.cid, payload)]⟩ ∧
    mapGet (mapRemove st.active_transfers id) id = none ∧
    mapGet (mapInsert st.ended_transfers id
        { c with pending := c.pending ++ [payload] }) id =
      some { c with pending := c.pending ++ [payload] } ∧
    ({ c with pending := c.pending ++ [payload] } : Chan).cid = c.cid ∧
    c.pending <+: c.pending ++ [payload] := by
  have hnp : ∀ bs, payload ≠ .padding bs := by
    rcases hpay with h | h <;> (rw [h]; intro bs hc; cases hc)
  have hns : payload ≠ .start := by
    rcases hpay with h | h <;> (rw [h]; intro hc; cases hc)
  have hwe : willEnd payload = true := by
    rcases hpay with h | h <;> rw [h] <;> rfl
  have hstep := dispatchStep_forward_live st id payload hf hnp hns hget hconn
  rw [if_pos hwe] at hstep
  exact ⟨hstep, mapGet_mapRemove_self _ _, mapGet_mapInsert_self _ _ _, rfl,
    List.prefix_append _ _⟩

/-- Witness for C5 at a concrete input: client 3 active on channel 0 with one
queued `Data`, an `End` arrives. -/
theorem C5_terminal_moves_to_ended_witness :
    dispatchStep ⟨[(3, ⟨0, [Message.data [9]], true⟩)], [], [], 1⟩
        ⟨3, Message.end_⟩ =
      .next { (⟨[(3, ⟨0, [Message.data [9]], true⟩)], [], [], 1⟩ : DispatchState) with
              active_transfers := mapRemove [(3, ⟨0, [Message.data [9]], true⟩)] 3,
              ended_transfers := mapInsert [] 3
                { (⟨0, [Message.data [9]], true⟩ : Chan) with
                  pending := [Message.data [9]] ++ [Message.end_] } }
            ⟨[], [(0, Message.end_)]⟩ ∧
    mapGet (mapRemove [(3, ⟨0, [Message.data [9]], true⟩)] 3) 3 = none ∧
    mapGet (mapInsert [] 3
        { (⟨0, [Message.data [9]], true⟩ : Chan) with
          pending := [Message.data [9]] ++ [Message.end_] }) 3 =
      some { (⟨0, [Message.data [9]], true⟩ : Chan) with
             pending := [Message.data [9]] ++ [Message.end_] } ∧
    ({ (⟨0, [Message.data [9]], true⟩ : Chan) with
       pending := [Message.data [9]] ++ [Message.end_] } : Chan).cid =
      (⟨0, [Message.data [9]], true⟩ : Chan).cid ∧
    [Message.data [9]] <+: [Message.data [9]] ++ [Message.end_] :=
  C5_terminal_moves_to_ended ⟨[(3, ⟨0, [Message.data [9]], true⟩)], [], [], 1⟩ 3
    Message.end_ ⟨0, [Message.data [9]], true⟩ (Or.inr rfl) (by decide) (by decide)
    (by decide)

/-- C10: a `Data`, `Abort` or `End` message whose client_id is neither in the
active table nor in the failed set makes the dispatcher panic on
`active_transfers.get(..).unwrap()` instead of dropping the message or
returning an error. -/
theorem C10_orphan_message_panics (st : DispatchState) (id : ClientId)
    (payload : Message)
    (hpay : (∃ bs, payload = .data bs) ∨ payload = .abort ∨ payload = .end_)
    (hf : st.failed_transfers.contains id = false)
    (hget : mapGet st.active_transfers id = none) :
    dispatchStep st ⟨id, payload⟩ = .panicked := by
  have hnp : ∀ bs, payload ≠ .padding bs := by
    rcases hpay with ⟨bs, h⟩ | h | h <;> (rw [h]; intro bs hc; cases hc)
  have hns : payload ≠ .start := by
    rcases hpay with ⟨bs, h⟩ | h | h <;> (rw [h]; intro hc; cases hc)
  exact dispatchStep_forward_miss st id payload hf hnp hns hget

/-- Witness for C10 at a concrete input: the initial (empty) state receives a
`Data` message for client 5 whose `Start` was lost. -/
theorem C10_orphan_message_panics_witness :
    dispatchStep initState ⟨5, Message.data [2]⟩ = .panicked :=
  C10_orphan_message_panics initState 5 (Message.data [2])
    (Or.inl ⟨[2], rfl⟩) (by decide) (by decide)

/-- C6: if deserializing a `ClientMessage` fails after any successfully
processed prefix, `main_loop` returns that error immediately — the result
does not depend on anything after the failure (no record is skipped, no
resynchronization happens, no further message is processed) — and the stage
entry point `new` exits after logging it. -/
theorem C6_parse_failure_fatal
    (pre rest : List (Except DeserError ClientMessage)) (st' : DispatchState)
    (e : DeserError) (h : main_loop_from initState pre = .running st') :
    main_loop (pre ++ .error e :: rest) = .err e ∧
    new (pre ++ .error e :: rest) =
      some ("deserialize loop error: " ++ deserErrorMsg e) := by
  have h1 : main_loop (pre ++ .error e :: rest) = .err e := by
    unfold main_loop
    rw [main_loop_from_append pre _ h]
    rfl
  refine ⟨h1, ?_⟩
  unfold new
  rw [h1]

/-- Witness for C6 at a concrete input: one `Start` is processed, then the
stream ends mid-record; a further message follows the error in the trace and
is never processed. -/
theorem C6_parse_failure_fatal_witness :
    main_loop ([.ok ⟨4, Message.start⟩] ++
        .error ⟨"io error: unexpected end of file"⟩ :: [.ok ⟨4, Message.data [1]⟩]) =
      .err ⟨"io error: unexpected end of file"⟩ ∧
    new ([.ok ⟨4, Message.start⟩] ++
        .error ⟨"io error: unexpected end of file"⟩ :: [.ok ⟨4, Message.data [1]⟩]) =
      some ("deserialize loop error: " ++
        deserErrorMsg ⟨"io error: unexpected end of file"⟩) :=
  C6_parse_failure_fatal [.ok ⟨4, Message.start⟩] [.ok ⟨4, Message.data [1]⟩]
    ⟨[(4, ⟨0, [], true⟩)], [], [], 1⟩ ⟨"io error: unexpected end of file"⟩ (by rfl)

end Deserialize

namespace DiodeReceive

open Protocol

/-- C7: after `Config::adjust`, `encoding_block_size` equals
`nb_encoding_packets * packet_size` exactly and `repair_block_size` equals
`nb_repair_packets * packet_size` exactly; both are exact multiples of
`packet_size` obtained by rounding the originally configured values up (the
adjusted value is a multiple of `packet_size` lying in
`[original, original + packet_size)`).  The hypotheses require the packet
size to be positive and the machine-width products not to overflow. -/
theorem C7_adjust_rounds_up (c : Config)
    (hp : 0 < packet_size
      (object_transmission_information c.from_udp_mtu c.encoding_block_size))
    (h64 : nb_encoding_packets
        (object_transmission_information c.from_udp_mtu c.encoding_block_size) *
      packet_size
        (object_transmission_information c.from_udp_mtu c.encoding_block_size)
        < 2 ^ 64)
    (h32 : nb_repair_packets
        (object_transmission_information c.from_udp_mtu c.encoding_block_size)
        c.repair_block_size *
      packet_size
        (object_transmission_information c.from_udp_mtu c.encoding_block_size)
        < 2 ^ 32) :
    c.adjust.encoding_block_size =
      nb_encoding_packets
        (object_transmission_information c.from_udp_mtu c.encoding_block_size) *
      packet_size
        (object_transmission_information c.from_udp_mtu c.encoding_block_size) ∧
    c.adjust.repair_block_size =
      nb_repair_packets
        (object_transmission_information c.from_udp_mtu c.encoding_block_size)
        c.repair_block_size *
      packet_size
        (object_transmission_information c.from_udp_mtu c.encoding_block_size) ∧
    packet_size
        (object_transmission_information c.from_udp_mtu c.encoding_block_size) ∣
      c.adjust.encoding_block_size ∧
    packet_size
        (object_transmission_information c.from_udp_mtu c.encoding_block_size) ∣
      c.adjust.repair_block_size ∧
    c.encoding_block_size ≤ c.adjust.encoding_block_size ∧
    c.adjust.encoding_block_size < c.encoding_block_size +
      packet_size
        (object_transmission_information c.from_udp_mtu c.encoding_block_size) ∧
    c.repair_block_size ≤ c.adjust.repair_block_size ∧
    c.adjust.repair_block_size < c.repair_block_size +
      packet_size
        (object_transmission_information c.from_udp_mtu c.encoding_block_size) := by
  have he : c.adjust.encoding_block_size =
      nb_encoding_packets
        (object_transmission_information c.from_udp_mtu c.encoding_block_size) *
      packet_size
        (object_transmission_information c.from_udp_mtu c.encoding_block_size) :=
    Nat.mod_eq_of_lt h64
  have hr : c.adjust.repair_block_size =
      nb_repair_packets
        (object_transmission_information c.from_udp_mtu c.encoding_block_size)
        c.repair_block_size *
      packet_size
        (object_transmission_information c.from_udp_mtu c.encoding_block_size) :=
    Nat.mod_eq_of_lt h32
  refine ⟨he, hr, ?_, ?_, ?_, ?_, ?_, ?_⟩
  · rw [he]; exact dvd_mul_left _ _
  · rw [hr]; exact dvd_mul_left _ _
  · rw [he]; exact roundUp_ge _ _ hp
  · rw [he]; exact roundUp_lt _ _ hp
  · rw [hr]; exact roundUp_ge _ _ hp
  · rw [hr]; exact roundUp_lt _ _ hp

/-- Witness for C7 at the default configuration
(`mtu 1500, encoding_block_size 60000, repair_block_size 6000`). -/
theorem C7_adjust_rounds_up_witness :
    (⟨1500, 60000, 6000⟩ : Config).adjust.encoding_block_size =
      nb_encoding_packets (object_transmission_information 1500 60000) *
      packet_size (object_transmission_information 1500 60000) ∧
    (⟨1500, 60000, 6000⟩ : Config).adjust.repair_block_size =
      nb_repair_packets (object_transmission_information 1500 60000) 6000 *
      packet_size (object_transmission_information 1500 60000) ∧
    packet_size (object_transmission_information 1500 60000) ∣
      (⟨1500, 60000, 6000⟩ : Config).adjust.encoding_block_size ∧
    packet_size (object_transmission_information 1500 60000) ∣
      (⟨1500, 60000, 6000⟩ : Config).adjust.repair_block_size ∧
    60000 ≤ (⟨1500, 60000, 6000⟩ : Config).adjust.encoding_block_size ∧
    (⟨1500, 60000, 6000⟩ : Config).adjust.encoding_block_size <
      60000 + packet_size (object_transmission_information 1500 60000) ∧
    6000 ≤ (⟨1500, 60000, 6000⟩ : Config).adjust.repair_block_size ∧
    (⟨1500, 60000, 6000⟩ : Config).adjust.repair_block_size <
      6000 + packet_size (object_transmission_information 1500 60000) :=
  C7_adjust_rounds_up ⟨1500, 60000, 6000⟩ (by decide) (by decide) (by decide)

end DiodeReceive

namespace SockUtils

/-- C8 (amended): socket-buffer tuning is best-effort only while the two
buffer calls succeed — then the stage continues and the warning is logged if
and only if the effective size is below twice `encoding_block_size +
repair_block_size`; but a failed `setsockopt` or `getsockopt` is fatal: the
error propagates out of the tuning fragment (and hence out of the stage's
`main_loop`, see the counterexample on the UDP send path). -/
theorem C8_buffer_tuning_dichotomy (env : SockopsEnv) (ebs rbs : Nat) :
    (∃ s warned, env.set_buffer = .ok () ∧ env.get_buffer = .ok s ∧
      tune_socket_buffer env ebs rbs = .ok (s, warned) ∧
      (warned = true ↔ s < 2 * (ebs + rbs))) ∨
    (∃ e, tune_socket_buffer env ebs rbs = .error e ∧
      (env.set_buffer = .error e ∨
        (env.set_buffer = .ok () ∧ env.get_buffer = .error e))) := by
  obtain ⟨sb, gb⟩ := env
  cases sb with
  | error e => exact Or.inr ⟨e, rfl, Or.inl rfl⟩
  | ok u =>
    cases u
    cases gb with
    | error e => exact Or.inr ⟨e, rfl, Or.inr ⟨rfl, rfl⟩⟩
    | ok s =>
      exact Or.inl ⟨s, decide (s < 2 * (ebs + rbs)), rfl, rfl, rfl, by simp⟩

/-- C8 (counterexample): with a failing `setsockopt` on the UDP send path the
stage does not continue: `main_loop` returns the propagated error without
sending the batch that is available on its input queue, refuting "in every
case (including a failed setsockopt request) execution of the stage
continues". -/
theorem C8_setsockopt_failure_is_fatal :
    UdpSend.main_loop ⟨.ok (), ⟨.error ⟨"libc::setsockopt"⟩, .ok 0⟩⟩ 60000 6000
        [.okIter [[1, 2, 3]]] =
      .failed (.io_ ⟨"libc::setsockopt"⟩) := by
  rfl

end SockUtils

namespace UdpSend

open SockUtils

/-- C9: in the UDP send stage every I/O error (bind, socket-buffer tuning,
send) and every channel-receive error terminates the stage's loop — the
result is `failed` no matter what iterations would have followed, so there is
no retry and no restart — and the stage entry point `new` logs the error
exactly once and returns. -/
theorem C9_udp_send_errors_fatal (env : Env) (ebs rbs : Nat) (out : Nat × Bool)
    (pre : List Batch) (rest : List Iteration)
    (hbind : env.bind = .ok ())
    (htune : tune_socket_buffer env.sockops ebs rbs = .ok out) :
    (main_loop env ebs rbs (pre.map Iteration.okIter ++ Iteration.recvFail :: rest) =
        .failed .crossbeam ∧
      new env ebs rbs (pre.map Iteration.okIter ++ Iteration.recvFail :: rest) =
        some ("UDP send loop error: " ++ errorMsg .crossbeam)) ∧
    (∀ pkts e,
      main_loop env ebs rbs
          (pre.map Iteration.okIter ++ Iteration.sendFail pkts e :: rest) =
        .failed (.io_ e) ∧
      new env ebs rbs (pre.map Iteration.okIter ++ Iteration.sendFail pkts e :: rest) =
        some ("UDP send loop error: " ++ errorMsg (.io_ e))) ∧
    (∀ (env₂ : Env) (e : IOErr), env₂.bind = .error e →
      main_loop env₂ ebs rbs rest = .failed (.io_ e) ∧
      new env₂ ebs rbs rest = some ("UDP send loop error: " ++ errorMsg (.io_ e))) ∧
    (∀ (env₂ : Env) (e : IOErr), env₂.bind = .ok () →
      tune_socket_buffer env₂.sockops ebs rbs = .error e →
      main_loop env₂ ebs rbs rest = .failed (.io_ e) ∧
      new env₂ ebs rbs rest = some ("UDP send loop error: " ++ errorMsg (.io_ e))) := by
  have hml : ∀ iters, main_loop env ebs rbs iters = send_loop [] iters := by
    intro iters
    unfold main_loop
    rw [hbind, htune]
  have h1 : main_loop env ebs rbs
      (pre.map Iteration.okIter ++ Iteration.recvFail :: rest) =
      .failed .crossbeam :=
    (hml _).trans ((send_loop_append_ok pre [] _).trans rfl)
  have h2 : ∀ pkts e, main_loop env ebs rbs
      (pre.map Iteration.okIter ++ Iteration.sendFail pkts e :: rest) =
      .failed (.io_ e) := fun pkts e =>
    (hml _).trans ((send_loop_append_ok pre [] _).trans rfl)
  refine ⟨⟨h1, ?_⟩, fun pkts e => ⟨h2 pkts e, ?_⟩, ?_, ?_⟩
  · unfold new
    rw [h1]
  · unfold new
    rw [h2 pkts e]
  · intro env₂ e hb2
    have hm : main_loop env₂ ebs rbs rest = .failed (.io_ e) := by
      unfold main_loop
      rw [hb2]
    refine ⟨hm, ?_⟩
    unfold new
    rw [hm]
  · intro env₂ e hb2 ht2
    have hm : main_loop env₂ ebs rbs rest = .failed (.io_ e) := by
      unfold main_loop
      rw [hb2, ht2]
    refine ⟨hm, ?_⟩
    unfold new
    rw [hm]

/-- Witness for C9 at a concrete input: setup succeeds with a large reported
buffer, one batch is sent successfully before the failing iteration. -/
theorem C9_udp_send_errors_fatal_witness :
    (main_loop ⟨.ok (), ⟨.ok (), .ok 1000000⟩⟩ 100 10
        ([[[1]]].map Iteration.okIter ++ Iteration.recvFail :: []) =
        .failed .crossbeam ∧
      new ⟨.ok (), ⟨.ok (), .ok 1000000⟩⟩ 100 10
          ([[[1]]].map Iteration.okIter ++ Iteration.recvFail :: []) =
        some ("UDP send loop error: " ++ errorMsg .crossbeam)) ∧
    (∀ pkts e,
      main_loop ⟨.ok (), ⟨.ok (), .ok 1000000⟩⟩ 100 10
          ([[[1]]].map Iteration.okIter ++ Iteration.sendFail pkts e :: []) =
        .failed (.io_ e) ∧
      new ⟨.ok (), ⟨.ok (), .ok 1000000⟩⟩ 100 10
          ([[[1]]].map Iteration.okIter ++ Iteration.sendFail pkts e :: []) =
        some ("UDP send loop error: " ++ errorMsg (.io_ e))) ∧
    (∀ (env₂ : Env) (e : IOErr), env₂.bind = .error e →
      main_loop env₂ 100 10 [] = .failed (.io_ e) ∧
      new env₂ 100 10 [] = some ("UDP send loop error: " ++ errorMsg (.io_ e))) ∧
    (∀ (env₂ : Env) (e : IOErr), env₂.bind = .ok () →
      tune_socket_buffer env₂.sockops 100 10 = .error e →
      main_loop env₂ 100 10 [] = .failed (.io_ e) ∧
      new env₂ 100 10 [] = some ("UDP send loop error: " ++ errorMsg (.io_ e))) :=
  C9_udp_send_errors_fatal ⟨.ok (), ⟨.ok (), .ok 1000000⟩⟩ 100 10 (1000000, false)
    [[[1]]] [] rfl rfl

end UdpSend
